import Mathlib

/-!
Shallow embedding of the Data Quality AI Suite front-end (src/App.tsx).

The component state of `App` is modelled as an explicit record `AppState`;
each React event handler (`handleCreatePrompt`, `handleGenerateRules`,
`handleBack`) becomes a state-transition function.  The asynchronous call to
the external generation boundary in `handleGenerateRules` is modelled by a
stream (`List FetchResult`) of boundary outcomes: each invocation of the
handler consumes exactly one outcome (success with a parsed rule list, or a
fault covering network errors, thrown exceptions and malformed JSON); an
empty stream models a call that never resolves, leaving the UI loading.
-/

namespace DQApp

/-- The two pages of the wizard: the page useState hook of App.tsx. -/
inductive Page where
  | config : Page
  | results : Page
deriving DecidableEq

/-- The two ruleType variants of the Rule interface. -/
inductive RuleType where
  | Business : RuleType
  | Technical : RuleType
deriving DecidableEq

/-- The Rule interface of App.tsx: ruleName, description, ruleType and an
optional codeSnippet. -/
structure Rule where
  ruleName : String
  description : String
  ruleType : RuleType
  codeSnippet : Option String
deriving DecidableEq

/-- The component state of `App`: one field per `useState` hook. -/
structure AppState where
  page : Page
  application : String
  operation : String
  domain : String
  department : String
  generatedPrompt : String
  formError : Option String
  apiError : Option String
  isLoading : Bool
  rules : List Rule
deriving DecidableEq

/-- The initial component state: all `useState` initial values. -/
def initialState : AppState :=
  { page := Page.config
    application := ""
    operation := ""
    domain := ""
    department := ""
    generatedPrompt := ""
    formError := none
    apiError := none
    isLoading := false
    rules := [] }

/-- The form-completeness check of App.tsx: any of the four selection
fields being the empty string (the only falsy string value) makes the form
incomplete. -/
def isFormIncomplete (s : AppState) : Bool :=
  s.application.isEmpty || s.operation.isEmpty || s.domain.isEmpty || s.department.isEmpty

/-- The validation message set by `handleCreatePrompt` on incomplete forms. -/
def formErrorMsg : String :=
  "Please select a value for all dropdowns to create a prompt."

/-- The error message set by `handleGenerateRules` when the boundary call
throws. -/
def apiErrorMsg : String :=
  "Failed to generate rules. The model may have returned an unexpected format. Please try refining your prompt."

/-- First literal chunk of the `commonContext` template string. -/
def ccLead : String :=
  "for the critical data elements like First Name, LastName, Middle Name, and CustomerID for the "

/-- Chunk of `commonContext` between the domain and department values. -/
def ccMid1 : String := " domain in the "

/-- Chunk of `commonContext` between the department and application values. -/
def ccMid2 : String := " department, within the context of the "

/-- Final literal chunk of the `commonContext` template string. -/
def ccTail : String := " application."

/-- The `commonContext` template literal of `handleCreatePrompt`. -/
def commonContext (domain department application : String) : String :=
  ccLead ++ domain ++ ccMid1 ++ department ++ ccMid2 ++ application ++ ccTail

/-- The `datasetContext` sentence appended by some template branches. -/
def datasetContext : String :=
  "Additionally, include the context of how these elements relate to a provided dataset."

/-- Leading literal of the `Business_Rules` template branch. -/
def bizLead : String := "I want to create Business data quality rules "

/-- Leading literal of the `Technical_Rules` template branch. -/
def techLead : String :=
  "I want to create technical data quality rules (e.g., SQL queries, Python scripts) "

/-- Leading literal of the `Estimations` template branch. -/
def estLead : String :=
  "I want to get estimations (e.g., effort in hours, complexity) for implementing data quality rules "

/-- Leading literal of the `Schema` template branch. -/
def schemaLead : String :=
  "I want to generate a data schema definition (e.g., JSON Schema, SQL DDL) "

/-- Leading literal of the default (fallback) template branch. -/
def fallbackLead : String := "Generate data quality information regarding "

/-- The single space that the template literals put between interpolations. -/
def sp : String := " "

/-- The prompt-assembly switch of `handleCreatePrompt` (App.tsx lines 35-54):
keyed on the `operation` value, with a default branch for unrecognized
values. -/
def composePrompt (application operation domain department : String) : String :=
  let cc := commonContext domain department application
  if operation = "Business_Rules" then
    bizLead ++ cc ++ sp ++ datasetContext
  else if operation = "Technical_Rules" then
    techLead ++ cc ++ sp ++ datasetContext
  else if operation = "Estimations" then
    estLead ++ cc
  else if operation = "Schema" then
    schemaLead ++ cc
  else
    fallbackLead ++ operation ++ sp ++ cc ++ sp ++ datasetContext

/-- The handleCreatePrompt handler: on an incomplete form set the validation error and
return; otherwise clear the validation error, store the composed prompt,
switch to the results page, clear the rules and the api error. -/
def handleCreatePrompt (s : AppState) : AppState :=
  if isFormIncomplete s then
    { s with formError := some formErrorMsg }
  else
    { s with formError := none
             generatedPrompt := composePrompt s.application s.operation s.domain s.department
             page := Page.results
             rules := []
             apiError := none }

/-- Outcome of one call to the external generation boundary: either a parsed
list of rules, or a fault (network error, thrown exception, or malformed
JSON making `JSON.parse` throw). -/
inductive FetchResult where
  | ok : List Rule → FetchResult
  | fault : FetchResult
deriving DecidableEq

/-- The handleGenerateRules handler: sets loading, clears the api error and the rules,
awaits one boundary outcome, then either stores the parsed rules or sets the
api error message; `finally` clears the loading flag.  The handler consumes
exactly one outcome from the boundary stream; an empty stream models a call
that never resolves (the state stays loading). -/
def handleGenerateRules (s : AppState) (boundary : List FetchResult) :
    AppState × List FetchResult :=
  let started := { s with isLoading := true, apiError := none, rules := [] }
  match boundary with
  | [] => (started, [])
  | FetchResult.ok rs :: rest =>
      ({ started with rules := rs, isLoading := false }, rest)
  | FetchResult.fault :: rest =>
      ({ started with apiError := some apiErrorMsg, isLoading := false }, rest)

/-- The `disabled` condition of the "Create Data Quality Rules" button
(App.tsx line 203): `isLoading || !generatedPrompt`. -/
def generateDisabled (s : AppState) : Bool :=
  s.isLoading || s.generatedPrompt.isEmpty

/-- Clicking the "Create Data Quality Rules" button: a disabled button fires
no handler (the state is unchanged and no boundary request is made);
otherwise `handleGenerateRules` runs. -/
def clickGenerateRules (s : AppState) (boundary : List FetchResult) :
    AppState × List FetchResult :=
  if generateDisabled s then (s, boundary) else handleGenerateRules s boundary

/-- The handleBack handler: return to the config page and clear the validation error;
nothing else is touched. -/
def handleBack (s : AppState) : AppState :=
  { s with page := Page.config, formError := none }

/-- The string `sub` occurs verbatim (as a contiguous substring) in `s`. -/
def containsStr (s sub : String) : Prop :=
  ∃ l r : List Char, l ++ sub.data ++ r = s.data

/-- A concrete complete Selection on the config page, used by witnesses. -/
def demoConfig : AppState :=
  { initialState with
      application := "CRM"
      operation := "Business_Rules"
      domain := "Customer"
      department := "Finance" }

/-- Substring introduction from an explicit decomposition of the data. -/
theorem containsStr_of_data (s sub : String) (l r : List Char)
    (h : s.data = l ++ (sub.data ++ r)) : containsStr s sub :=
  ⟨l, r, by rw [List.append_assoc, ← h]⟩

/-- A string containing a character absent from `s` is not a substring of
`s`. -/
theorem not_containsStr_of_not_mem (s sub : String) (c : Char)
    (hc : c ∈ sub.data) (hs : c ∉ s.data) : ¬ containsStr s sub := by
  rintro ⟨l, r, h⟩
  exact hs (h ▸ (List.mem_append.mpr (Or.inl (List.mem_append.mpr (Or.inr hc)))))

/-- Every string occurs in itself. -/
theorem containsStr_self (s : String) : containsStr s s :=
  ⟨[], [], by simp⟩

/-- A substring of `a` is a substring of `a ++ b`. -/
theorem containsStr_appL (a b sub : String) (h : containsStr a sub) :
    containsStr (a ++ b) sub := by
  obtain ⟨l, r, hl⟩ := h
  exact ⟨l, r ++ b.data, by simp [String.data_append, ← hl]⟩

/-- A substring of `b` is a substring of `a ++ b`. -/
theorem containsStr_appR (a b sub : String) (h : containsStr b sub) :
    containsStr (a ++ b) sub := by
  obtain ⟨l, r, hl⟩ := h
  exact ⟨a.data ++ l, r, by simp [String.data_append, ← hl]⟩

/-- The commonContext template contains the domain value verbatim. -/
theorem commonContext_contains_domain (dom dep app : String) :
    containsStr (commonContext dom dep app) dom := by
  unfold commonContext
  exact containsStr_appL _ _ _ (containsStr_appL _ _ _ (containsStr_appL _ _ _
    (containsStr_appL _ _ _ (containsStr_appL _ _ _
      (containsStr_appR _ _ _ (containsStr_self _))))))

/-- The commonContext template contains the department value verbatim. -/
theorem commonContext_contains_department (dom dep app : String) :
    containsStr (commonContext dom dep app) dep := by
  unfold commonContext
  exact containsStr_appL _ _ _ (containsStr_appL _ _ _ (containsStr_appL _ _ _
    (containsStr_appR _ _ _ (containsStr_self _))))

/-- The commonContext template contains the application value verbatim. -/
theorem commonContext_contains_application (dom dep app : String) :
    containsStr (commonContext dom dep app) app := by
  unfold commonContext
  exact containsStr_appL _ _ _ (containsStr_appR _ _ _ (containsStr_self _))

/-- Shape of the `Business_Rules` template branch. -/
theorem composePrompt_business (app dom dep : String) :
    composePrompt app "Business_Rules" dom dep =
      bizLead ++ commonContext dom dep app ++ sp ++ datasetContext := by
  simp [composePrompt]

/-- Shape of the `Technical_Rules` template branch. -/
theorem composePrompt_technical (app dom dep : String) :
    composePrompt app "Technical_Rules" dom dep =
      techLead ++ commonContext dom dep app ++ sp ++ datasetContext := by
  simp [composePrompt]

/-- Shape of the `Estimations` template branch: no dataset clause appended. -/
theorem composePrompt_estimations (app dom dep : String) :
    composePrompt app "Estimations" dom dep =
      estLead ++ commonContext dom dep app := by
  simp [composePrompt]

/-- Shape of the `Schema` template branch: no dataset clause appended. -/
theorem composePrompt_schema (app dom dep : String) :
    composePrompt app "Schema" dom dep =
      schemaLead ++ commonContext dom dep app := by
  simp [composePrompt]

/-- Shape of the default (fallback) template branch. -/
theorem composePrompt_fallback (app op dom dep : String)
    (h1 : op ≠ "Business_Rules") (h2 : op ≠ "Technical_Rules")
    (h3 : op ≠ "Estimations") (h4 : op ≠ "Schema") :
    composePrompt app op dom dep =
      fallbackLead ++ op ++ sp ++ commonContext dom dep app ++ sp ++ datasetContext := by
  simp [composePrompt, h1, h2, h3, h4]

/-- The character 'v' occurs in the dataset clause but in no literal chunk of
the `Estimations` template, so a 'v'-free selection yields an `Estimations`
prompt without the dataset clause. -/
theorem estimations_omits_dataset (app dom dep : String)
    (hd : 'v' ∉ dom.data) (hp : 'v' ∉ dep.data) (ha : 'v' ∉ app.data) :
    ¬ containsStr (composePrompt app "Estimations" dom dep) datasetContext := by
  apply not_containsStr_of_not_mem _ _ 'v' (by decide)
  simp [composePrompt, commonContext, String.data_append, List.mem_append]
  exact ⟨by decide, by decide, fun h => hd h, by decide, fun h => hp h, by decide,
    fun h => ha h, by decide⟩

/-- The character 'v' occurs in the dataset clause but in no literal chunk of
the `Schema` template, so a 'v'-free selection yields a `Schema` prompt
without the dataset clause. -/
theorem schema_omits_dataset (app dom dep : String)
    (hd : 'v' ∉ dom.data) (hp : 'v' ∉ dep.data) (ha : 'v' ∉ app.data) :
    ¬ containsStr (composePrompt app "Schema" dom dep) datasetContext := by
  apply not_containsStr_of_not_mem _ _ 'v' (by decide)
  simp [composePrompt, commonContext, String.data_append, List.mem_append]
  exact ⟨by decide, by decide, fun h => hd h, by decide, fun h => hp h, by decide,
    fun h => ha h, by decide⟩

/-- Claim C1 (amended): for every complete Selection, the prompt composed for
each of the four known operations contains the domain, department and
application values verbatim; the Business_Rules and Technical_Rules prompts
contain the dataset-relation clause; the Estimations and Schema prompts omit
it provided the domain, department and application values do not themselves
contain the character 'v' (a character of the clause that occurs in no
literal chunk of those two templates); and for any other operation value the
fallback prompt contains the operation verbatim plus the dataset-relation
clause. -/
theorem c1_prompt_contents (app op dom dep : String)
    (hApp : app ≠ "") (hOp : op ≠ "") (hDom : dom ≠ "") (hDep : dep ≠ "") :
    (containsStr (composePrompt app "Business_Rules" dom dep) dom ∧
     containsStr (composePrompt app "Business_Rules" dom dep) dep ∧
     containsStr (composePrompt app "Business_Rules" dom dep) app ∧
     containsStr (composePrompt app "Business_Rules" dom dep) datasetContext) ∧
    (containsStr (composePrompt app "Technical_Rules" dom dep) dom ∧
     containsStr (composePrompt app "Technical_Rules" dom dep) dep ∧
     containsStr (composePrompt app "Technical_Rules" dom dep) app ∧
     containsStr (composePrompt app "Technical_Rules" dom dep) datasetContext) ∧
    (containsStr (composePrompt app "Estimations" dom dep) dom ∧
     containsStr (composePrompt app "Estimations" dom dep) dep ∧
     containsStr (composePrompt app "Estimations" dom dep) app ∧
     ('v' ∉ dom.data → 'v' ∉ dep.data → 'v' ∉ app.data →
       ¬ containsStr (composePrompt app "Estimations" dom dep) datasetContext)) ∧
    (containsStr (composePrompt app "Schema" dom dep) dom ∧
     containsStr (composePrompt app "Schema" dom dep) dep ∧
     containsStr (composePrompt app "Schema" dom dep) app ∧
     ('v' ∉ dom.data → 'v' ∉ dep.data → 'v' ∉ app.data →
       ¬ containsStr (composePrompt app "Schema" dom dep) datasetContext)) ∧
    (op ≠ "Business_Rules" → op ≠ "Technical_Rules" → op ≠ "Estimations" →
     op ≠ "Schema" →
      containsStr (composePrompt app op dom dep) op ∧
      containsStr (composePrompt app op dom dep) datasetContext) := by
  refine ⟨⟨?_, ?_, ?_, ?_⟩, ⟨?_, ?_, ?_, ?_⟩, ⟨?_, ?_, ?_, ?_⟩, ⟨?_, ?_, ?_, ?_⟩, ?_⟩
  · rw [composePrompt_business]
    exact containsStr_appL _ _ _ (containsStr_appL _ _ _ (containsStr_appR _ _ _
      (commonContext_contains_domain dom dep app)))
  · rw [composePrompt_business]
    exact containsStr_appL _ _ _ (containsStr_appL _ _ _ (containsStr_appR _ _ _
      (commonContext_contains_department dom dep app)))
  · rw [composePrompt_business]
    exact containsStr_appL _ _ _ (containsStr_appL _ _ _ (containsStr_appR _ _ _
      (commonContext_contains_application dom dep app)))
  · rw [composePrompt_business]
    exact containsStr_appR _ _ _ (containsStr_self _)
  · rw [composePrompt_technical]
    exact containsStr_appL _ _ _ (containsStr_appL _ _ _ (containsStr_appR _ _ _
      (commonContext_contains_domain dom dep app)))
  · rw [composePrompt_technical]
    exact containsStr_appL _ _ _ (containsStr_appL _ _ _ (containsStr_appR _ _ _
      (commonContext_contains_department dom dep app)))
  · rw [composePrompt_technical]
    exact containsStr_appL _ _ _ (containsStr_appL _ _ _ (containsStr_appR _ _ _
      (commonContext_contains_application dom dep app)))
  · rw [composePrompt_technical]
    exact containsStr_appR _ _ _ (containsStr_self _)
  · rw [composePrompt_estimations]
    exact containsStr_appR _ _ _ (commonContext_contains_domain dom dep app)
  · rw [composePrompt_estimations]
    exact containsStr_appR _ _ _ (commonContext_contains_department dom dep app)
  · rw [composePrompt_estimations]
    exact containsStr_appR _ _ _ (commonContext_contains_application dom dep app)
  · exact fun hd hp ha => estimations_omits_dataset app dom dep hd hp ha
  · rw [composePrompt_schema]
    exact containsStr_appR _ _ _ (commonContext_contains_domain dom dep app)
  · rw [composePrompt_schema]
    exact containsStr_appR _ _ _ (commonContext_contains_department dom dep app)
  · rw [composePrompt_schema]
    exact containsStr_appR _ _ _ (commonContext_contains_application dom dep app)
  · exact fun hd hp ha => schema_omits_dataset app dom dep hd hp ha
  · intro h1 h2 h3 h4
    rw [composePrompt_fallback app op dom dep h1 h2 h3 h4]
    constructor
    · exact containsStr_appL _ _ _ (containsStr_appL _ _ _ (containsStr_appL _ _ _
        (containsStr_appL _ _ _ (containsStr_appR _ _ _ (containsStr_self _)))))
    · exact containsStr_appR _ _ _ (containsStr_self _)

/-- An append whose left part has non-empty data has non-empty data. -/
theorem data_append_ne_nil (a b : String) (h : a.data ≠ []) : (a ++ b).data ≠ [] := by
  rw [String.data_append]
  intro he
  exact h (List.append_eq_nil.mp he).1

/-- Every template branch of the prompt switch yields non-empty text. -/
theorem composePrompt_ne_empty (app op dom dep : String) :
    composePrompt app op dom dep ≠ "" := by
  have key : (composePrompt app op dom dep).data ≠ [] := by
    by_cases h1 : op = "Business_Rules"
    · rw [h1, composePrompt_business]
      exact data_append_ne_nil _ _ (data_append_ne_nil _ _ (data_append_ne_nil _ _ (by decide)))
    by_cases h2 : op = "Technical_Rules"
    · rw [h2, composePrompt_technical]
      exact data_append_ne_nil _ _ (data_append_ne_nil _ _ (data_append_ne_nil _ _ (by decide)))
    by_cases h3 : op = "Estimations"
    · rw [h3, composePrompt_estimations]
      exact data_append_ne_nil _ _ (by decide)
    by_cases h4 : op = "Schema"
    · rw [h4, composePrompt_schema]
      exact data_append_ne_nil _ _ (by decide)
    rw [composePrompt_fallback app op dom dep h1 h2 h3 h4]
    exact data_append_ne_nil _ _ (data_append_ne_nil _ _ (data_append_ne_nil _ _
      (data_append_ne_nil _ _ (data_append_ne_nil _ _ (by decide)))))
  intro h
  apply key
  rw [h]

/-- A non-empty string has `isEmpty = false`. -/
theorem ne_empty_isEmpty_false (s : String) (h : s ≠ "") : s.isEmpty = false := by
  cases he : s.isEmpty
  · rfl
  · exact absurd ((String.isEmpty_iff s).mp he) h

/-- On a complete form, `handleCreatePrompt` stores the composed prompt. -/
theorem handleCreatePrompt_prompt (s : AppState) (hc : isFormIncomplete s = false) :
    (handleCreatePrompt s).generatedPrompt =
      composePrompt s.application s.operation s.domain s.department := by
  simp [handleCreatePrompt, hc]

/-- Claim C1, counterexample to the claim as stated: at the complete
Selection whose domain value is the dataset clause itself, the `Estimations`
prompt does contain the dataset-relation clause, so the unconditional
omission asserted for Estimations fails. -/
theorem c1_counterexample :
    containsStr (composePrompt "CRM" "Estimations" datasetContext "Finance")
      datasetContext := by
  rw [composePrompt_estimations]
  exact containsStr_appR _ _ _ (commonContext_contains_domain datasetContext "Finance" "CRM")

/-- Claim C1, witness: the amended theorem instantiated at a concrete
complete Selection. -/
theorem c1_witness :
    containsStr (composePrompt "CRM" "Business_Rules" "Customer" "Finance") "Customer" ∧
    (¬ containsStr (composePrompt "CRM" "Estimations" "Customer" "Finance") datasetContext) ∧
    containsStr (composePrompt "CRM" "Deduplication" "Customer" "Finance") "Deduplication" := by
  have h := c1_prompt_contents "CRM" "Deduplication" "Customer" "Finance"
    (by decide) (by decide) (by decide) (by decide)
  exact ⟨h.1.1, h.2.2.1.2.2.2 (by decide) (by decide) (by decide),
    (h.2.2.2.2 (by decide) (by decide) (by decide) (by decide)).1⟩

/-- Claim C2: on a Selection with at least one empty field, invoking the
compose operation sets the validation error, produces no prompt (the stored
prompt is unchanged), and leaves the ViewState unchanged: the whole new
state is the old one with only the validation error set. -/
theorem c2_incomplete_validation (s : AppState) (h : isFormIncomplete s = true) :
    (handleCreatePrompt s).formError = some formErrorMsg ∧
    (handleCreatePrompt s).generatedPrompt = s.generatedPrompt ∧
    (handleCreatePrompt s).page = s.page ∧
    handleCreatePrompt s = { s with formError := some formErrorMsg } := by
  simp [handleCreatePrompt, h]

/-- Claim C2, witness: the initial state has an incomplete form. -/
theorem c2_witness :
    (handleCreatePrompt initialState).formError = some formErrorMsg ∧
    (handleCreatePrompt initialState).generatedPrompt = initialState.generatedPrompt ∧
    (handleCreatePrompt initialState).page = initialState.page ∧
    handleCreatePrompt initialState = { initialState with formError := some formErrorMsg } :=
  c2_incomplete_validation initialState (by decide)

/-- Claim C3: on a complete Selection in the Configuring state, successful
composition moves the page to Reviewing, stores the composed text as the
prompt, clears the rule list, and clears the fetch error (and the validation
error). -/
theorem c3_compose_success (s : AppState) (hc : isFormIncomplete s = false)
    (hp : s.page = Page.config) :
    (handleCreatePrompt s).page = Page.results ∧
    (handleCreatePrompt s).generatedPrompt =
      composePrompt s.application s.operation s.domain s.department ∧
    (handleCreatePrompt s).rules = [] ∧
    (handleCreatePrompt s).apiError = none ∧
    (handleCreatePrompt s).formError = none := by
  simp [handleCreatePrompt, hc]

/-- Claim C3, witness: the demo complete Selection on the config page. -/
theorem c3_witness :
    (handleCreatePrompt demoConfig).page = Page.results ∧
    (handleCreatePrompt demoConfig).generatedPrompt =
      composePrompt demoConfig.application demoConfig.operation demoConfig.domain
        demoConfig.department ∧
    (handleCreatePrompt demoConfig).rules = [] ∧
    (handleCreatePrompt demoConfig).apiError = none ∧
    (handleCreatePrompt demoConfig).formError = none :=
  c3_compose_success demoConfig (by decide) (by decide)

/-- Claim C5: composition is deterministic: two states that agree on the four
selection fields compose byte-identical prompt text, whatever the rest of
their state; and the mapping from the operation value to a template branch
is total: every operation value lands in exactly one of the four known
branches or the fallback branch. -/
theorem c5_deterministic_total (s t : AppState) (hc : isFormIncomplete s = false)
    (hA : s.application = t.application) (hO : s.operation = t.operation)
    (hD : s.domain = t.domain) (hP : s.department = t.department) :
    (handleCreatePrompt s).generatedPrompt = (handleCreatePrompt t).generatedPrompt ∧
    ((s.operation = "Business_Rules" ∧
        (handleCreatePrompt s).generatedPrompt =
          bizLead ++ commonContext s.domain s.department s.application ++ sp ++ datasetContext) ∨
     (s.operation = "Technical_Rules" ∧
        (handleCreatePrompt s).generatedPrompt =
          techLead ++ commonContext s.domain s.department s.application ++ sp ++ datasetContext) ∨
     (s.operation = "Estimations" ∧
        (handleCreatePrompt s).generatedPrompt =
          estLead ++ commonContext s.domain s.department s.application) ∨
     (s.operation = "Schema" ∧
        (handleCreatePrompt s).generatedPrompt =
          schemaLead ++ commonContext s.domain s.department s.application) ∨
     (s.operation ≠ "Business_Rules" ∧ s.operation ≠ "Technical_Rules" ∧
      s.operation ≠ "Estimations" ∧ s.operation ≠ "Schema" ∧
        (handleCreatePrompt s).generatedPrompt =
          fallbackLead ++ s.operation ++ sp ++
            commonContext s.domain s.department s.application ++ sp ++ datasetContext)) := by
  have htc : isFormIncomplete t = false := by
    unfold isFormIncomplete at hc ⊢
    rw [← hA, ← hO, ← hD, ← hP]
    exact hc
  constructor
  · rw [handleCreatePrompt_prompt s hc, handleCreatePrompt_prompt t htc, hA, hO, hD, hP]
  · rw [handleCreatePrompt_prompt s hc]
    by_cases h1 : s.operation = "Business_Rules"
    · exact Or.inl ⟨h1, by rw [h1, composePrompt_business]⟩
    by_cases h2 : s.operation = "Technical_Rules"
    · exact Or.inr (Or.inl ⟨h2, by rw [h2, composePrompt_technical]⟩)
    by_cases h3 : s.operation = "Estimations"
    · exact Or.inr (Or.inr (Or.inl ⟨h3, by rw [h3, composePrompt_estimations]⟩))
    by_cases h4 : s.operation = "Schema"
    · exact Or.inr (Or.inr (Or.inr (Or.inl ⟨h4, by rw [h4, composePrompt_schema]⟩)))
    exact Or.inr (Or.inr (Or.inr (Or.inr ⟨h1, h2, h3, h4,
      composePrompt_fallback s.application s.operation s.domain s.department h1 h2 h3 h4⟩)))

/-- Claim C5, witness: determinism and branch totality at the demo state. -/
theorem c5_witness :
    (handleCreatePrompt demoConfig).generatedPrompt =
      (handleCreatePrompt demoConfig).generatedPrompt ∧
    (handleCreatePrompt demoConfig).generatedPrompt =
      bizLead ++ commonContext demoConfig.domain demoConfig.department
        demoConfig.application ++ sp ++ datasetContext := by
  have h := c5_deterministic_total demoConfig demoConfig (by decide) rfl rfl rfl rfl
  refine ⟨h.1, ?_⟩
  rcases h.2 with h' | h' | h' | h' | h'
  · exact h'.2
  · exact absurd h'.1 (by decide)
  · exact absurd h'.1 (by decide)
  · exact absurd h'.1 (by decide)
  · exact absurd (rfl : demoConfig.operation = "Business_Rules") h'.1

/-- Claim C10: on a complete Selection the composed prompt is non-empty (in
every template branch, the fallback included), so immediately after entering
Reviewing the empty-prompt disjunct of the fetch-button disable condition is
false: the button is disabled exactly when a fetch is already loading. -/
theorem c10_prompt_nonempty (s : AppState) (hc : isFormIncomplete s = false) :
    (handleCreatePrompt s).generatedPrompt ≠ "" ∧
    (handleCreatePrompt s).generatedPrompt.isEmpty = false ∧
    generateDisabled (handleCreatePrompt s) = s.isLoading := by
  have hne : (handleCreatePrompt s).generatedPrompt ≠ "" := by
    rw [handleCreatePrompt_prompt s hc]
    exact composePrompt_ne_empty s.application s.operation s.domain s.department
  have hie := ne_empty_isEmpty_false _ hne
  refine ⟨hne, hie, ?_⟩
  have hld : (handleCreatePrompt s).isLoading = s.isLoading := by
    simp [handleCreatePrompt, hc]
  rw [generateDisabled, hie, hld, Bool.or_false]

/-- Claim C10, witness: the demo complete Selection. -/
theorem c10_witness :
    (handleCreatePrompt demoConfig).generatedPrompt ≠ "" ∧
    (handleCreatePrompt demoConfig).generatedPrompt.isEmpty = false ∧
    generateDisabled (handleCreatePrompt demoConfig) = demoConfig.isLoading :=
  c10_prompt_nonempty demoConfig (by decide)

/-- Claim C4: on a failed fetch (fault from the boundary: network error,
exception, or malformed JSON), the rule list is left empty, the single
GenerationError message is set, the loading flag is cleared, and exactly one
boundary outcome is consumed (no automatic retry: the rest of the boundary
stream is untouched). -/
theorem c4_fetch_failure (s : AppState) (rest : List FetchResult) :
    (handleGenerateRules s (FetchResult.fault :: rest)).1.rules = [] ∧
    (handleGenerateRules s (FetchResult.fault :: rest)).1.apiError = some apiErrorMsg ∧
    (handleGenerateRules s (FetchResult.fault :: rest)).1.isLoading = false ∧
    (handleGenerateRules s (FetchResult.fault :: rest)).2 = rest := by
  simp [handleGenerateRules]

/-- Claim C6: while a fetch is in flight (the loading flag is set), the fetch
button is disabled, so triggering the fetch action has no effect: the state
is unchanged and no boundary outcome is consumed, keeping at most one fetch
in flight. -/
theorem c6_loading_disables_fetch (s : AppState) (boundary : List FetchResult)
    (h : s.isLoading = true) :
    clickGenerateRules s boundary = (s, boundary) := by
  simp [clickGenerateRules, generateDisabled, h]

/-- Claim C6, witness: a loading state on the results page ignores a click. -/
theorem c6_witness :
    clickGenerateRules { demoConfig with page := Page.results, isLoading := true }
        [FetchResult.fault] =
      ({ demoConfig with page := Page.results, isLoading := true }, [FetchResult.fault]) :=
  c6_loading_disables_fetch _ _ rfl

/-- Claim C7: the back action always returns the page to Configuring
(whatever the prior fetch state), clears the validation error, and leaves
the four selection fields and the fetched rule list unchanged. -/
theorem c7_back_navigation (s : AppState) :
    (handleBack s).page = Page.config ∧
    (handleBack s).formError = none ∧
    (handleBack s).application = s.application ∧
    (handleBack s).operation = s.operation ∧
    (handleBack s).domain = s.domain ∧
    (handleBack s).department = s.department ∧
    (handleBack s).rules = s.rules := by
  simp [handleBack]

/-- Claim C8, counterexample to the claim as stated: returning to Configuring
via the back action does not clear a previously fetched rule list. -/
theorem c8_counterexample :
    (handleBack
        { page := Page.results
          application := "CRM"
          operation := "Business_Rules"
          domain := "Customer"
          department := "Finance"
          generatedPrompt := "p"
          formError := none
          apiError := none
          isLoading := false
          rules := [{ ruleName := "R1", description := "D1",
                      ruleType := RuleType.Business, codeSnippet := none }] }).page =
      Page.config ∧
    (handleBack
        { page := Page.results
          application := "CRM"
          operation := "Business_Rules"
          domain := "Customer"
          department := "Finance"
          generatedPrompt := "p"
          formError := none
          apiError := none
          isLoading := false
          rules := [{ ruleName := "R1", description := "D1",
                      ruleType := RuleType.Business, codeSnippet := none }] }).rules ≠
      [] := by
  exact ⟨rfl, by decide⟩

/-- Claim C8 (amended): the rule list starts empty, is populated atomically
exactly by a successful fetch, is cleared when a fetch starts (also while it
is still in flight and when it fails) and when a new prompt is composed, and
is left unchanged by returning to Configuring via the back action. -/
theorem c8_rule_list_lifecycle (s : AppState) (rs : List Rule)
    (rest : List FetchResult) (hc : isFormIncomplete s = false) :
    initialState.rules = [] ∧
    (handleGenerateRules s (FetchResult.ok rs :: rest)).1.rules = rs ∧
    (handleGenerateRules s (FetchResult.fault :: rest)).1.rules = [] ∧
    (handleGenerateRules s []).1.rules = [] ∧
    (handleCreatePrompt s).rules = [] ∧
    (handleBack s).rules = s.rules := by
  simp [handleGenerateRules, handleCreatePrompt, handleBack, initialState, hc]

/-- Claim C8, witness: the lifecycle facts at the demo state. -/
theorem c8_witness :
    initialState.rules = [] ∧
    (handleGenerateRules demoConfig
        [FetchResult.ok [{ ruleName := "R1", description := "D1",
                           ruleType := RuleType.Business, codeSnippet := none }]]).1.rules =
      [{ ruleName := "R1", description := "D1",
         ruleType := RuleType.Business, codeSnippet := none }] ∧
    (handleGenerateRules demoConfig [FetchResult.fault]).1.rules = [] ∧
    (handleGenerateRules demoConfig []).1.rules = [] ∧
    (handleCreatePrompt demoConfig).rules = [] ∧
    (handleBack demoConfig).rules = demoConfig.rules :=
  c8_rule_list_lifecycle demoConfig
    [{ ruleName := "R1", description := "D1",
       ruleType := RuleType.Business, codeSnippet := none }] [] (by decide)

/-- Claim C9, counterexample to the claim as stated: with an empty composed
prompt, triggering the fetch action reports no fetch error at all: the
button is disabled, the state is unchanged and the api error stays `none`. -/
theorem c9_counterexample :
    clickGenerateRules { initialState with page := Page.results } [FetchResult.fault] =
      ({ initialState with page := Page.results }, [FetchResult.fault]) ∧
    (clickGenerateRules { initialState with page := Page.results }
        [FetchResult.fault]).1.apiError = none := by
  decide

/-- Claim C9 (amended): with a non-empty composed prompt and no fetch in
flight, triggering the fetch action runs the fetch handler, consumes exactly
one boundary outcome (a request is issued), and renders the returned rule
list on success; with an empty composed prompt the fetch action is disabled
and has no effect: no request is issued and no fetch error is reported. -/
theorem c9_fetch_contract (s : AppState) (o : FetchResult) (rest : List FetchResult) :
    (s.generatedPrompt ≠ "" → s.isLoading = false →
      clickGenerateRules s (o :: rest) = handleGenerateRules s (o :: rest) ∧
      (clickGenerateRules s (o :: rest)).2 = rest ∧
      (∀ rs, o = FetchResult.ok rs → (clickGenerateRules s (o :: rest)).1.rules = rs)) ∧
    (s.generatedPrompt = "" →
      clickGenerateRules s (o :: rest) = (s, o :: rest) ∧
      (clickGenerateRules s (o :: rest)).1.apiError = s.apiError) := by
  constructor
  · intro hne hld
    have hen : generateDisabled s = false := by
      rw [generateDisabled, hld, ne_empty_isEmpty_false _ hne]
      rfl
    refine ⟨by rw [clickGenerateRules, hen]; rfl, ?_, ?_⟩
    · rw [clickGenerateRules, hen]
      simp only [Bool.false_eq_true, if_false]
      cases o <;> simp [handleGenerateRules]
    · intro rs ho
      rw [clickGenerateRules, hen, ho]
      simp [handleGenerateRules]
  · intro he
    have hdis : generateDisabled s = true := by
      rw [generateDisabled, he]
      simp [String.isEmpty]
    rw [clickGenerateRules, hdis]
    exact ⟨rfl, rfl⟩

/-- Claim C9, witness: a non-empty prompt on the results page issues exactly
one boundary request and renders the returned list. -/
theorem c9_witness :
    clickGenerateRules { initialState with page := Page.results, generatedPrompt := "p" }
        [FetchResult.ok []] =
      handleGenerateRules { initialState with page := Page.results, generatedPrompt := "p" }
        [FetchResult.ok []] ∧
    (clickGenerateRules { initialState with page := Page.results, generatedPrompt := "p" }
        [FetchResult.ok []]).2 = [] := by
  have h := c9_fetch_contract
    { initialState with page := Page.results, generatedPrompt := "p" }
    (FetchResult.ok []) []
  exact ⟨(h.1 (by decide) rfl).1, (h.1 (by decide) rfl).2.1⟩

end DQApp
